import Mathlib

set_option linter.unusedVariables false

/-!
Verification development for the AJ-Tools pyRevit scripts
(`Match Elevation Tool.py` and `Copie dim text .py`).

The geometry and the two helper functions of the elevation tool, the MEP
selection filter, and the interactive session loops of both tools are
embedded shallowly.  Real-valued host coordinates are modelled as rationals
(`ℚ`) so that every definition is executable and concrete runs can be
checked by `decide`/`rfl`.  User interaction (the blocking `PickObject`
calls) is modelled by a list of events the operator produces; exhausting
the event list ends the session like a cancellation does.  `forms.alert`
calls are recorded in a notification trace; the per-commit view refresh is
a separate fire-and-forget service and is not a notification.
-/

/-- Three-dimensional point, modelling the Revit `XYZ` value type.
Coordinates are in the host's internal length unit. -/
@[ext]
structure XYZ where
  x : ℚ
  y : ℚ
  z : ℚ
  deriving DecidableEq, Repr

/-- A bounded straight line segment given by its two endpoints
(`curve.GetEndPoint(0)` and `curve.GetEndPoint(1)`).  For the MEP
categories the tool's filter admits, a `LocationCurve` always carries a
bounded straight line, so this is the curve type of the embedding; it also
serves as the spec's `GeometrySegment` value type. -/
@[ext]
structure Curve where
  ep0 : XYZ
  ep1 : XYZ
  deriving DecidableEq, Repr

/-- The `Location` of a Revit element: a `LocationCurve` holding a bounded
line, a `LocationPoint`, or no usable location.  Only the first case passes
the `isinstance(location, LocationCurve)` checks in the source. -/
inductive Location where
  | locationCurve (curve : Curve)
  | locationPoint (p : XYZ)
  | locationNone
  deriving DecidableEq, Repr

/-- Whether a location is a `LocationCurve` (holding a bounded line). -/
def Location.isLine : Location → Bool
  | .locationCurve _ => true
  | _ => false

/-- A host document element as the elevation tool sees it: the integer id
of its category (`element.Category.Id.IntegerValue`) and its `Location`. -/
structure Element where
  categoryId : Int
  location : Location
  deriving DecidableEq, Repr

/-- Host API errors that the embedded code can raise. -/
inductive RevitError where
  | argumentsInconsistent
  deriving DecidableEq, Repr

/-- Model of `Line.CreateBound(a, b)`: the Revit API rejects a zero-length
line by raising `ArgumentsInconsistentException`; otherwise it returns the
bounded line from `a` to `b`. -/
def Line.CreateBound (a b : XYZ) : Except RevitError Curve :=
  if a = b then .error .argumentsInconsistent else .ok ⟨a, b⟩

/-- Midpoint elevation of a segment: `(start.Z + end.Z) / 2.0`, as computed
in `get_element_middle_elevation` and in `set_element_elevation`. -/
def computeMidpoint (s : Curve) : ℚ :=
  (s.ep0.z + s.ep1.z) / 2

/-- The pure elevation transform performed by `set_element_elevation`
(lines 83-91 of `Match Elevation Tool.py`): compute
`elevation_diff = target - current_middle` and add it to the `z` of both
endpoints, keeping `x` and `y`. -/
def shiftToMidpoint (s : Curve) (target_elevation : ℚ) : Curve :=
  let elevation_diff := target_elevation - computeMidpoint s
  { ep0 := ⟨s.ep0.x, s.ep0.y, s.ep0.z + elevation_diff⟩
    ep1 := ⟨s.ep1.x, s.ep1.y, s.ep1.z + elevation_diff⟩ }

/-- Body of the `try` block of `get_element_middle_elevation`: return
`None` when the location is not a `LocationCurve`, else the average of the
endpoint elevations.  No statement of this body can raise on the modelled
element type, but the result lives in `Except` to mirror the source's
exception discipline. -/
def get_element_middle_elevation_body (element : Element) :
    Except RevitError (Option ℚ) :=
  match element.location with
  | .locationCurve curve =>
      let start_point := curve.ep0
      let end_point := curve.ep1
      .ok (some ((start_point.z + end_point.z) / 2))
  | _ => .ok none

/-- `get_element_middle_elevation(element)`: the `try` body with the
`except: return None` handler wrapped around it. -/
def get_element_middle_elevation (element : Element) : Option ℚ :=
  match get_element_middle_elevation_body element with
  | .ok v => v
  | .error _ => none

/-- Body of the `try` block of `set_element_elevation`: return `False`
when the location is not a `LocationCurve`; otherwise shift both endpoints
by `elevation_diff`, build the new line with `Line.CreateBound` (which can
raise), assign it to the location and return `True`.  The second component
of the result is the element's state after the body. -/
def set_element_elevation_body (element : Element) (target_elevation : ℚ) :
    Except RevitError (Bool × Element) :=
  match element.location with
  | .locationCurve curve =>
      let start_point := curve.ep0
      let end_point := curve.ep1
      let current_middle := (start_point.z + end_point.z) / 2
      let elevation_diff := target_elevation - current_middle
      let new_start : XYZ := ⟨start_point.x, start_point.y, start_point.z + elevation_diff⟩
      let new_end : XYZ := ⟨end_point.x, end_point.y, end_point.z + elevation_diff⟩
      match Line.CreateBound new_start new_end with
      | .error e => .error e
      | .ok new_line => .ok (true, { element with location := .locationCurve new_line })
  | _ => .ok (false, element)

/-- `set_element_elevation(element, target_elevation)`: the `try` body with
the `except: return False` handler wrapped around it; a caught exception
leaves the element in its pre-call state. -/
def set_element_elevation (element : Element) (target_elevation : ℚ) :
    Bool × Element :=
  match set_element_elevation_body element target_elevation with
  | .ok r => r
  | .error _ => (false, element)

/-- `BuiltInCategory.OST_PipeCurves` as an integer. -/
def OST_PipeCurves : Int := -2008044

/-- `BuiltInCategory.OST_DuctCurves` as an integer. -/
def OST_DuctCurves : Int := -2008000

/-- `BuiltInCategory.OST_CableTray` as an integer. -/
def OST_CableTray : Int := -2008130

/-- `BuiltInCategory.OST_Conduit` as an integer. -/
def OST_Conduit : Int := -2008132

/-- `BuiltInCategory.OST_FlexDuctCurves` as an integer. -/
def OST_FlexDuctCurves : Int := -2008020

/-- `BuiltInCategory.OST_FlexPipeCurves` as an integer. -/
def OST_FlexPipeCurves : Int := -2008050

/-- The `categories` list inside `MEPElementFilter.AllowElement`. -/
def mepCategories : List Int :=
  [OST_PipeCurves, OST_DuctCurves, OST_CableTray, OST_Conduit,
   OST_FlexDuctCurves, OST_FlexPipeCurves]

/-- `MEPElementFilter.AllowElement`: the `for` loop returns `True` as soon
as the element's category id equals one of the six listed categories, and
`False` after the loop otherwise. -/
def MEPElementFilter.AllowElement (element : Element) : Bool :=
  mepCategories.any (fun cat => element.categoryId == cat)

/-- An opaque pick reference (only its element matters to the model). -/
structure Reference where
  elem : Element
  deriving Repr

/-- `MEPElementFilter.AllowReference` always returns `False`. -/
def MEPElementFilter.AllowReference (reference : Reference) (position : XYZ) :
    Bool :=
  false

/-- Alert messages the two scripts can emit through `forms.alert`, plus the
two session-end summary messages of the dimension tool. -/
inductive Notification where
  | sourceElevationAlert
  | cancelledAlert
  | loopErrorAlert
  | noTextAlert
  | unexpectedErrorAlert
  | summarySuccess (n : Nat)
  | summaryNone
  deriving DecidableEq, Repr

/-- Whether a notification is one of the two session-end summaries of the
dimension tool. -/
def Notification.isSummary : Notification → Bool
  | .summarySuccess _ => true
  | .summaryNone => true
  | _ => false

/-- Operator response to one target `PickObject` request of the elevation
tool: a picked element, or the ESC/cancel exception. -/
inductive PickEvent where
  | pick (e : Element)
  | cancel
  deriving Repr

/-- Operator response to the one source `PickObject` request. -/
inductive SourcePick (α : Type) where
  | pick (e : α)
  | cancel
  deriving Repr

/-- The `while True` target loop of the elevation tool's `main` (lines
134-153): each picked target is passed to `set_element_elevation` inside a
transaction, `counter += 1` runs unconditionally, and any exception at the
pick (ESC) breaks the loop.  Returns the final `counter` and, per processed
target in order, the discarded helper result and the target's new state. -/
def elevLoop (source_elevation : ℚ) : List PickEvent → Nat × List (Bool × Element)
  | [] => (0, [])
  | PickEvent.cancel :: _ => (0, [])
  | PickEvent.pick e :: rest =>
      let applied := set_element_elevation e source_elevation
      let tail := elevLoop source_elevation rest
      (tail.1 + 1, applied :: tail.2)

/-- Outcome of one elevation-tool session: the final counter, the
processed targets, and the notification trace. -/
structure ElevResult where
  counter : Nat
  applied : List (Bool × Element)
  notifications : List Notification
  deriving Repr

/-- The elevation tool's `main`: pick a source (cancellation is swallowed
by the outer `except: pass`), read its middle elevation (alert and exit
when it is `None`), then run the target loop.  No notification is emitted
at the end of the loop. -/
def elevMain (source : SourcePick Element) (events : List PickEvent) :
    ElevResult :=
  match source with
  | .cancel => ⟨0, [], []⟩
  | .pick source_element =>
      match get_element_middle_elevation source_element with
      | none => ⟨0, [], [Notification.sourceElevationAlert]⟩
      | some source_elevation =>
          let r := elevLoop source_elevation events
          ⟨r.1, r.2, []⟩

/-- The filter argument of the source `PickObject` call in the elevation
tool's `main` (line 117): the `mep_filter` instance. -/
def elevationSourcePickFilter : Element → Bool :=
  MEPElementFilter.AllowElement

/-- The filter argument of every target `PickObject` call in the elevation
tool's `main` (line 137): the same `mep_filter` instance. -/
def elevationTargetPickFilter : Element → Bool :=
  MEPElementFilter.AllowElement

/-- The four text fields of a dimension (`Above`, `Below`, `Prefix`,
`Suffix`); each may be absent (`None`) or any string, the empty string
being a value distinct from absence. -/
structure DimFields where
  above : Option String
  below : Option String
  pfx : Option String
  sfx : Option String
  deriving DecidableEq, Repr

/-- A dimension element, reduced to its four text fields. -/
structure DimElement where
  fields : DimFields
  deriving DecidableEq, Repr

/-- Python falsiness of a text field: `not s` holds exactly for `None` and
the empty string. -/
def isFalsy (s : Option String) : Bool :=
  match s with
  | none => true
  | some t => t == ""

/-- The capture guard of the dimension tool (line 64):
`not text_above and not text_below and not text_prefix and not text_suffix`. -/
def allFalsy (f : DimFields) : Bool :=
  isFalsy f.above && isFalsy f.below && isFalsy f.pfx && isFalsy f.sfx

/-- The paste step of the dimension tool: assign all four captured values
onto the target, unconditionally overwriting each field. -/
def applyDimText (target : DimElement) (captured : DimFields) : DimElement :=
  { target with
      fields :=
        { above := captured.above
          below := captured.below
          pfx := captured.pfx
          sfx := captured.sfx } }

/-- Operator response to one target `PickObject` request of the dimension
tool: a picked dimension, the ESC cancellation, or any other exception
raised during the iteration. -/
inductive DimEvent where
  | pick (d : DimElement)
  | cancel
  | errorDuringPick
  deriving Repr

/-- Outcome of the dimension tool's target loop: `updated_count`, the
number of `PickObject` requests issued, the pasted targets in order, and
the notifications emitted inside the loop. -/
structure DimLoopOut where
  updatedCount : Nat
  pickRequests : Nat
  finalTargets : List DimElement
  loopNotifications : List Notification
  deriving Repr

/-- The `while True` loop of the dimension tool's `main` (lines 71-98):
each iteration requests one pick; ESC breaks the loop silently, any other
exception alerts and breaks, and a picked dimension receives the four
captured values in a transaction followed by a view refresh and
`updated_count += 1`. -/
def dimLoop (captured : DimFields) : List DimEvent → DimLoopOut
  | [] => ⟨0, 0, [], []⟩
  | DimEvent.cancel :: _ => ⟨0, 1, [], []⟩
  | DimEvent.errorDuringPick :: _ => ⟨0, 1, [], [Notification.loopErrorAlert]⟩
  | DimEvent.pick d :: rest =>
      let pasted := applyDimText d captured
      let tail := dimLoop captured rest
      ⟨tail.updatedCount + 1, tail.pickRequests + 1, pasted :: tail.finalTargets,
       tail.loopNotifications⟩

/-- Outcome of one dimension-tool session. -/
structure DimResult where
  updatedCount : Nat
  pickRequests : Nat
  finalTargets : List DimElement
  notifications : List Notification
  deriving Repr

/-- The dimension tool's `main`: pick a source dimension (cancellation
alerts "cancelled"; a null element returns silently), capture the four
fields, alert "No Text Found" and return before any target pick when all
four are falsy, otherwise run the loop and end with exactly one summary
alert (`success` when `updated_count > 0`, else `no dimensions updated`). -/
def dimMain (source : SourcePick (Option DimElement)) (events : List DimEvent) :
    DimResult :=
  match source with
  | .cancel => ⟨0, 0, [], [Notification.cancelledAlert]⟩
  | .pick none => ⟨0, 0, [], []⟩
  | .pick (some source_dim) =>
      let captured := source_dim.fields
      if allFalsy captured then
        ⟨0, 0, [], [Notification.noTextAlert]⟩
      else
        let r := dimLoop captured events
        let finalNote :=
          if r.updatedCount > 0 then Notification.summarySuccess r.updatedCount
          else Notification.summaryNone
        ⟨r.updatedCount, r.pickRequests, r.finalTargets,
         r.loopNotifications ++ [finalNote]⟩

/-- The targets the elevation loop processes: the pick events before the
first cancellation. -/
def picksUntilCancel : List PickEvent → List Element
  | [] => []
  | PickEvent.cancel :: _ => []
  | PickEvent.pick e :: rest => e :: picksUntilCancel rest

/-- A pipe-category source element whose centerline runs from the origin
to `(10, 0, 4)`; its middle elevation is `2`. -/
def srcPipe : Element :=
  ⟨OST_PipeCurves, .locationCurve ⟨⟨0, 0, 0⟩, ⟨10, 0, 4⟩⟩⟩

/-- A horizontal pipe-category target element. -/
def tgtPipe1 : Element :=
  ⟨OST_PipeCurves, .locationCurve ⟨⟨0, 0, 0⟩, ⟨1, 0, 0⟩⟩⟩

/-- A target element whose location is a `LocationPoint`, so its geometry
is not a bounded line segment. -/
def tgtPoint : Element :=
  ⟨OST_PipeCurves, .locationPoint ⟨0, 0, 0⟩⟩

/-- A second horizontal pipe-category target element. -/
def tgtPipe3 : Element :=
  ⟨OST_PipeCurves, .locationCurve ⟨⟨0, 1, 0⟩, ⟨1, 1, 0⟩⟩⟩

/-- A degenerate element whose `LocationCurve` carries a zero-length line;
shifting it makes `Line.CreateBound` raise. -/
def tgtDegenerate : Element :=
  ⟨OST_PipeCurves, .locationCurve ⟨⟨2, 3, 1⟩, ⟨2, 3, 1⟩⟩⟩

/-- A dimension whose four text fields are all empty or absent. -/
def dimEmptySource : DimElement :=
  ⟨⟨some "", none, some "", none⟩⟩

/-- A dimension with text in the `Above` field only. -/
def dimSourceA : DimElement :=
  ⟨⟨some "A", some "", some "PRE", none⟩⟩

/-- A dimension target that initially carries text in the `Below` field. -/
def dimTargetOld : DimElement :=
  ⟨⟨none, some "OLD", none, some "S"⟩⟩

/-- Processing a non-degenerate line element: the helper rebuilds the
location with the shifted segment and returns `True`. -/
lemma set_element_elevation_line (e : Element) (curve : Curve) (t : ℚ)
    (hl : e.location = Location.locationCurve curve) (hnd : curve.ep0 ≠ curve.ep1) :
    set_element_elevation e t =
      (true, { e with location := Location.locationCurve (shiftToMidpoint curve t) }) := by
  have hne : (⟨curve.ep0.x, curve.ep0.y,
        curve.ep0.z + (t - (curve.ep0.z + curve.ep1.z) / 2)⟩ : XYZ) ≠
      ⟨curve.ep1.x, curve.ep1.y,
        curve.ep1.z + (t - (curve.ep0.z + curve.ep1.z) / 2)⟩ := by
    intro hc
    apply hnd
    have hx := congrArg XYZ.x hc
    have hy := congrArg XYZ.y hc
    have hz := congrArg XYZ.z hc
    simp at hx hy hz
    ext <;> assumption
  simp only [set_element_elevation, set_element_elevation_body, hl, Line.CreateBound,
    shiftToMidpoint, computeMidpoint, if_neg hne]

/-- C1: for every non-degenerate segment `S` and target elevation `E`,
`shiftToMidpoint S E` adds `delta = E - computeMidpoint S` to the `z`
coordinate of both endpoints while keeping `x` and `y`, the midpoint
elevation of the result equals `E`, and `set_element_elevation` performs
exactly this transform on an element located at `S`. -/
theorem shiftToMidpoint_correct (S : Curve) (E : ℚ) (hnd : S.ep0 ≠ S.ep1) :
    shiftToMidpoint S E =
      { ep0 := ⟨S.ep0.x, S.ep0.y, S.ep0.z + (E - computeMidpoint S)⟩
        ep1 := ⟨S.ep1.x, S.ep1.y, S.ep1.z + (E - computeMidpoint S)⟩ } ∧
    computeMidpoint (shiftToMidpoint S E) = E ∧
    ∀ e : Element, e.location = Location.locationCurve S →
      set_element_elevation e E =
        (true, { e with location := Location.locationCurve (shiftToMidpoint S E) }) := by
  refine ⟨rfl, ?_, fun e hl => set_element_elevation_line e S E hl hnd⟩
  simp only [shiftToMidpoint, computeMidpoint]
  ring

/-- Witness for C1 at the spec's concrete scenario: the segment from the
origin to `(10, 0, 4)` has midpoint elevation `2`; shifted to `5` the
result is the segment from `(0, 0, 3)` to `(10, 0, 7)` with midpoint `5`. -/
theorem shiftToMidpoint_correct_witness :
    (⟨⟨0, 0, 0⟩, ⟨10, 0, 4⟩⟩ : Curve).ep0 ≠ (⟨⟨0, 0, 0⟩, ⟨10, 0, 4⟩⟩ : Curve).ep1 ∧
    computeMidpoint (shiftToMidpoint ⟨⟨0, 0, 0⟩, ⟨10, 0, 4⟩⟩ 5) = 5 ∧
    set_element_elevation srcPipe 5 =
      (true, { srcPipe with
        location := Location.locationCurve (shiftToMidpoint ⟨⟨0, 0, 0⟩, ⟨10, 0, 4⟩⟩ 5) }) :=
  ⟨by decide,
   (shiftToMidpoint_correct ⟨⟨0, 0, 0⟩, ⟨10, 0, 4⟩⟩ 5 (by decide)).2.1,
   (shiftToMidpoint_correct ⟨⟨0, 0, 0⟩, ⟨10, 0, 4⟩⟩ 5 (by decide)).2.2 srcPipe rfl⟩

/-- C2: `shiftToMidpoint` leaves the `x` and `y` coordinates of both
endpoints, and hence the horizontal difference vector, exactly unchanged. -/
theorem shiftToMidpoint_horizontal_invariant (S : Curve) (E : ℚ) :
    (shiftToMidpoint S E).ep0.x = S.ep0.x ∧
    (shiftToMidpoint S E).ep0.y = S.ep0.y ∧
    (shiftToMidpoint S E).ep1.x = S.ep1.x ∧
    (shiftToMidpoint S E).ep1.y = S.ep1.y ∧
    (shiftToMidpoint S E).ep1.x - (shiftToMidpoint S E).ep0.x = S.ep1.x - S.ep0.x ∧
    (shiftToMidpoint S E).ep1.y - (shiftToMidpoint S E).ep0.y = S.ep1.y - S.ep0.y := by
  simp [shiftToMidpoint]

/-- C6: shifting a segment to the same target elevation twice gives the
same segment as shifting once (over exact arithmetic the second
application is a no-op). -/
theorem shiftToMidpoint_idempotent (S : Curve) (E : ℚ) :
    shiftToMidpoint (shiftToMidpoint S E) E = shiftToMidpoint S E := by
  simp only [shiftToMidpoint, computeMidpoint]
  ext <;> simp <;> ring

/-- C4: when a target's location is not a bounded line segment (not a
`LocationCurve`), `set_element_elevation` returns `False` and the element
is left completely unmodified. -/
theorem set_element_elevation_unsupported (e : Element) (t : ℚ)
    (h : e.location.isLine = false) :
    set_element_elevation e t = (false, e) := by
  cases hl : e.location with
  | locationCurve c => rw [hl] at h; simp [Location.isLine] at h
  | locationPoint p => simp [set_element_elevation, set_element_elevation_body, hl]
  | locationNone => simp [set_element_elevation, set_element_elevation_body, hl]

/-- Witness for C4: the point-located element is rejected unmodified. -/
theorem set_element_elevation_unsupported_witness :
    set_element_elevation tgtPoint 5 = (false, tgtPoint) :=
  set_element_elevation_unsupported tgtPoint 5 (by decide)

/-- C10: the two helpers are total at their interface: on an element whose
location is a `LocationCurve` the getter returns the midpoint, on any other
location both helpers answer `None` / `False`, any exception raised inside
the `set` body (a failing `Line.CreateBound`) is caught and turned into
`False` with the element unmodified, and the `get` body never raises. -/
theorem helpers_total_interface (e : Element) (t : ℚ) :
    (∀ c : Curve, e.location = Location.locationCurve c →
      get_element_middle_elevation e = some (computeMidpoint c)) ∧
    (e.location.isLine = false →
      get_element_middle_elevation e = none ∧ set_element_elevation e t = (false, e)) ∧
    (∀ err : RevitError, set_element_elevation_body e t = Except.error err →
      set_element_elevation e t = (false, e)) ∧
    (∀ err : RevitError, get_element_middle_elevation_body e ≠ Except.error err) := by
  refine ⟨?_, ?_, ?_, ?_⟩
  · intro c hl
    simp [get_element_middle_elevation, get_element_middle_elevation_body, hl, computeMidpoint]
  · intro h
    cases hl : e.location with
    | locationCurve c => rw [hl] at h; simp [Location.isLine] at h
    | locationPoint p =>
        simp [get_element_middle_elevation, get_element_middle_elevation_body,
          set_element_elevation, set_element_elevation_body, hl]
    | locationNone =>
        simp [get_element_middle_elevation, get_element_middle_elevation_body,
          set_element_elevation, set_element_elevation_body, hl]
  · intro err herr
    simp [set_element_elevation, herr]
  · intro err
    cases hl : e.location <;> simp [get_element_middle_elevation_body, hl]

/-- Witness for C10: a point-located element yields `None`/`False`, and the
degenerate line element makes the `set` body raise, which is caught and
reported as `False` with the element unmodified. -/
theorem helpers_total_interface_witness :
    get_element_middle_elevation tgtPoint = none ∧
    set_element_elevation tgtPoint 0 = (false, tgtPoint) ∧
    set_element_elevation tgtDegenerate 0 = (false, tgtDegenerate) :=
  ⟨((helpers_total_interface tgtPoint 0).2.1 (by decide)).1,
   ((helpers_total_interface tgtPoint 0).2.1 (by decide)).2,
   (helpers_total_interface tgtDegenerate 0).2.2.1 RevitError.argumentsInconsistent
     (by simp [set_element_elevation_body, tgtDegenerate, Line.CreateBound])⟩

/-- C8: the selection filter allows an element exactly when its category id
is one of the six MEP categories, rejects every reference pick, and the
same filter value gates both the source pick and every target pick of the
elevation session. -/
theorem mep_filter_spec :
    (∀ e : Element, MEPElementFilter.AllowElement e = true ↔
      (e.categoryId = OST_PipeCurves ∨ e.categoryId = OST_DuctCurves ∨
       e.categoryId = OST_CableTray ∨ e.categoryId = OST_Conduit ∨
       e.categoryId = OST_FlexDuctCurves ∨ e.categoryId = OST_FlexPipeCurves)) ∧
    (∀ (r : Reference) (p : XYZ), MEPElementFilter.AllowReference r p = false) ∧
    elevationSourcePickFilter = MEPElementFilter.AllowElement ∧
    elevationTargetPickFilter = MEPElementFilter.AllowElement := by
  refine ⟨?_, fun r p => rfl, rfl, rfl⟩
  intro e
  simp [MEPElementFilter.AllowElement, mepCategories]

/-- Unrolling the elevation target loop: the counter equals the number of
picks before the first cancellation, and each such pick is processed in
order by `set_element_elevation`. -/
lemma elevLoop_eq (z : ℚ) (events : List PickEvent) :
    elevLoop z events =
      ((picksUntilCancel events).length,
       (picksUntilCancel events).map (fun e => set_element_elevation e z)) := by
  induction events with
  | nil => rfl
  | cons ev rest ih =>
      cases ev with
      | cancel => rfl
      | pick e => simp [elevLoop, picksUntilCancel, ih]

/-- Events consisting of picks followed by a cancellation yield exactly
those picks. -/
lemma picksUntilCancel_append (l : List Element) (rest : List PickEvent) :
    picksUntilCancel (l.map PickEvent.pick ++ PickEvent.cancel :: rest) = l := by
  induction l with
  | nil => rfl
  | cons e tl ih => simp [picksUntilCancel, ih]

/-- C3 (amended): a per-target apply failure is isolated only in the sense
that the elevation loop continues and processes every later pick; the
session counts every picked target (here `|pre| + 1 + |post|`, not the
number of successes) and records no failure entry. -/
theorem elev_session_failure_isolation (z : ℚ) (pre post : List Element) (bad : Element) :
    (elevLoop z ((pre ++ bad :: post).map PickEvent.pick ++ [PickEvent.cancel])).2 =
      pre.map (fun e => set_element_elevation e z) ++
        set_element_elevation bad z :: post.map (fun e => set_element_elevation e z) ∧
    (elevLoop z ((pre ++ bad :: post).map PickEvent.pick ++ [PickEvent.cancel])).1 =
      pre.length + 1 + post.length := by
  rw [elevLoop_eq, picksUntilCancel_append]
  constructor
  · simp
  · simp [List.length_append]
    omega

/-- Counterexample for C3 as stated: in a session whose second of three
picked targets has unsupported geometry, the code still applies target #3
but ends with counter `3`, not successCount `2`, and produces no failure
record (the result type of the loop has none). -/
theorem elev_session_counts_failed_target :
    (elevMain (SourcePick.pick srcPipe)
      [PickEvent.pick tgtPipe1, PickEvent.pick tgtPoint, PickEvent.pick tgtPipe3,
       PickEvent.cancel]).counter = 3 ∧
    (elevMain (SourcePick.pick srcPipe)
      [PickEvent.pick tgtPipe1, PickEvent.pick tgtPoint, PickEvent.pick tgtPipe3,
       PickEvent.cancel]).counter ≠ 2 ∧
    ((elevMain (SourcePick.pick srcPipe)
      [PickEvent.pick tgtPipe1, PickEvent.pick tgtPoint, PickEvent.pick tgtPipe3,
       PickEvent.cancel]).applied.map Prod.fst) = [true, false, true] := by
  refine ⟨rfl, by decide, rfl⟩

/-- C9: the elevation tool's counter counts picked targets, not modified
elements: it always equals the number of picks before cancellation, the
number of actually mutated elements never exceeds it, and there are
sessions where it strictly exceeds the number of mutated elements. -/
theorem elev_counter_counts_picks :
    (∀ (z : ℚ) (events : List PickEvent),
       (elevLoop z events).1 = (picksUntilCancel events).length ∧
       ((elevLoop z events).2.countP fun r => r.1) ≤ (elevLoop z events).1) ∧
    ∃ (z : ℚ) (events : List PickEvent),
       ((elevLoop z events).2.countP fun r => r.1) < (elevLoop z events).1 := by
  constructor
  · intro z events
    rw [elevLoop_eq]
    exact ⟨rfl, le_trans (List.countP_le_length _) (by simp)⟩
  · exact ⟨0, [PickEvent.pick tgtPoint], by decide⟩

/-- The dimension loop alerts at most once, and only with the in-loop
error message. -/
lemma dimLoop_notifications_cases (captured : DimFields) (events : List DimEvent) :
    (dimLoop captured events).loopNotifications = [] ∨
    (dimLoop captured events).loopNotifications = [Notification.loopErrorAlert] := by
  induction events with
  | nil => exact Or.inl rfl
  | cons ev rest ih =>
      cases ev with
      | cancel => exact Or.inl rfl
      | errorDuringPick => exact Or.inr rfl
      | pick d => simpa [dimLoop] using ih

/-- A nonempty event list makes the loop issue at least one pick request. -/
lemma dimLoop_requests_pos (captured : DimFields) (ev : DimEvent) (rest : List DimEvent) :
    1 ≤ (dimLoop captured (ev :: rest)).pickRequests := by
  cases ev <;> simp [dimLoop]

/-- C5: the capture step alerts `No Text Found` exactly when all four
captured fields are absent or empty, in which case the session issues no
target pick request; when at least one field is non-empty the session
enters the target loop (a nonempty event list receives at least one pick
request). -/
theorem dim_noCapturableData_iff (d : DimElement) (events : List DimEvent) :
    (Notification.noTextAlert ∈
        (dimMain (SourcePick.pick (some d)) events).notifications ↔
      allFalsy d.fields = true) ∧
    (allFalsy d.fields = true →
      (dimMain (SourcePick.pick (some d)) events).pickRequests = 0) ∧
    (allFalsy d.fields = false → events ≠ [] →
      1 ≤ (dimMain (SourcePick.pick (some d)) events).pickRequests) := by
  refine ⟨?_, ?_, ?_⟩
  · cases h : allFalsy d.fields with
    | true => simp [dimMain, h]
    | false =>
        rcases dimLoop_notifications_cases d.fields events with hc | hc <;>
          rcases Nat.eq_zero_or_pos (dimLoop d.fields events).updatedCount with hn | hn <;>
          simp [dimMain, h, hc, hn]
  · intro ht
    simp [dimMain, ht]
  · intro hf hne
    cases events with
    | nil => exact absurd rfl hne
    | cons ev rest =>
        simpa [dimMain, hf] using dimLoop_requests_pos d.fields ev rest

/-- Witness for C5: an all-empty source aborts with the alert and zero pick
requests even though a target event is queued; a source with text issues a
pick request. -/
theorem dim_noCapturableData_iff_witness :
    (dimMain (SourcePick.pick (some dimEmptySource)) [DimEvent.pick dimTargetOld]).pickRequests
      = 0 ∧
    1 ≤ (dimMain (SourcePick.pick (some dimSourceA)) [DimEvent.pick dimTargetOld]).pickRequests :=
  ⟨(dim_noCapturableData_iff dimEmptySource [DimEvent.pick dimTargetOld]).2.1 (by decide),
   (dim_noCapturableData_iff dimSourceA [DimEvent.pick dimTargetOld]).2.2 (by decide)
     (List.cons_ne_nil _ _)⟩

/-- C7 (amended): a dimension-tool session whose source capture succeeds
ends with exactly one summary notification, which is the last notification
of the session (the only other possible alert is the in-loop error alert
that terminates the loop); an elevation-tool session whose source capture
succeeds emits no notification at all, in particular no session-end
summary. -/
theorem session_summary_notifications (d : DimElement) (events : List DimEvent)
    (hd : allFalsy d.fields = false)
    (s : Element) (z : ℚ) (hs : get_element_middle_elevation s = some z)
    (tevents : List PickEvent) :
    ((dimMain (SourcePick.pick (some d)) events).notifications.countP
        (fun n => n.isSummary) = 1 ∧
      ∃ last, (dimMain (SourcePick.pick (some d)) events).notifications.getLast? = some last ∧
        last.isSummary = true) ∧
    (elevMain (SourcePick.pick s) tevents).notifications = [] := by
  constructor
  · have hnotif : (dimMain (SourcePick.pick (some d)) events).notifications =
        (dimLoop d.fields events).loopNotifications ++
          [if (dimLoop d.fields events).updatedCount > 0 then
            Notification.summarySuccess (dimLoop d.fields events).updatedCount
           else Notification.summaryNone] := by
      simp [dimMain, hd]
    rw [hnotif]
    constructor
    · rw [List.countP_append]
      rcases dimLoop_notifications_cases d.fields events with hc | hc <;>
        rcases Nat.eq_zero_or_pos (dimLoop d.fields events).updatedCount with hn | hn <;>
        simp [hc, hn, Notification.isSummary, List.countP_cons, List.countP_nil]
    · refine ⟨_, List.getLast?_concat _, ?_⟩
      rcases Nat.eq_zero_or_pos (dimLoop d.fields events).updatedCount with hn | hn <;>
        simp [hn, Notification.isSummary]
  · simp [elevMain, hs]

/-- Witness for C7 (amended), with a dimension session that pastes to one
target and an elevation session that shifts one pipe. -/
theorem session_summary_notifications_witness :
    (dimMain (SourcePick.pick (some dimSourceA)) [DimEvent.pick dimTargetOld]).notifications.countP
        (fun n => n.isSummary) = 1 ∧
    (elevMain (SourcePick.pick srcPipe) [PickEvent.pick tgtPipe1, PickEvent.cancel]).notifications
      = [] :=
  ⟨(session_summary_notifications dimSourceA [DimEvent.pick dimTargetOld] (by decide)
      srcPipe ((0 + 4) / 2) rfl [PickEvent.pick tgtPipe1, PickEvent.cancel]).1.1,
   (session_summary_notifications dimSourceA [DimEvent.pick dimTargetOld] (by decide)
      srcPipe ((0 + 4) / 2) rfl [PickEvent.pick tgtPipe1, PickEvent.cancel]).2⟩

/-- Counterexample for C7 as stated: an elevation-tool session that
successfully applies one target ends with an empty notification trace, so
no session ends with exactly one summary notification in that tool. -/
theorem elev_session_emits_no_summary :
    (elevMain (SourcePick.pick srcPipe)
        [PickEvent.pick tgtPipe1, PickEvent.cancel]).notifications.countP
      (fun n => n.isSummary) = 0 ∧
    (elevMain (SourcePick.pick srcPipe)
        [PickEvent.pick tgtPipe1, PickEvent.cancel]).counter = 1 := by
  exact ⟨rfl, rfl⟩
